import Mathlib

/-!
Verification of the pipeline graph model and execution engine of the
Mikroscopy-Digitalis repository.

The development shallowly embeds the two executor variants
(`pipeline_execution.py` / `PipelineExecutor` and
`src/windows/processing_panel.py` / `PipelineExecutor`), the node-canvas
connection model (`src/windows/node_canvas.py`) and the pipeline codec
(`src/scenes/algorithm_scene.py`).  Python dictionaries are modelled as
association lists with first-position / last-value insertion semantics,
Python values flowing through the executors as the inductive type `PyVal`,
and exceptions as `Except`.  Image payloads and the numeric content of the
image operators are abstracted behind an opaque type parameter and opaque
operator functions (the spec treats the operator catalogue as an external
Operator Library collaborator); everything about graph traversal, input
resolution, parameter wiring, error handling and serialization is
translated directly from the source.

Modelling conventions:
* A Python `dict` key that is `None` (reachable only through a serialized
  connection field that is an explicit JSON `null`) is represented by the
  reserved key string `pyNoneKey`; no genuine key in the data model ever
  contains a NUL character, so the renaming is faithful.
* A serialized field that may be absent or `null` is `Option (Option String)`:
  `none` is an absent key, `some none` an explicit `null`.
* Recursion of the executors into nested algorithm pipelines is bounded by
  an explicit `fuel` argument; exhausted fuel takes exactly the path the
  CPython implementation takes when its recursion limit fires there
  (`RecursionError` is an `Exception` and is absorbed by the same handlers).
-/

/-- Python runtime errors that the embedded code can raise. -/
inductive PyErr where
  | keyError
  | valueError
  | attributeError
  | typeError
  | recursionError
deriving DecidableEq, Repr

/-- A Python value as it flows through the pipeline executors: `none` is
Python `None`, `obj` wraps an opaque image payload (a numpy array), and the
remaining constructors are the JSON-compatible scalars plus dictionaries. -/
inductive PyVal (α : Type) where
  | none
  | obj (a : α)
  | intV (n : Int)
  | floatV (q : Rat)
  | strV (s : String)
  | boolV (b : Bool)
  | dictV (fields : List (String × PyVal α))

/-- Reserved key standing for the Python `None` dictionary key. -/
def pyNoneKey : String := "\u0000PyNone"

/-- First binding of a key in an association list (Python dicts keep keys
unique, so with `pyItems`-normalised lists this is the dict lookup). -/
def pyLookup {β : Type} (fields : List (String × β)) (k : String) : Option β :=
  match fields with
  | [] => Option.none
  | (k2, v) :: rest => if k2 = k then some v else pyLookup rest k

/-- `d[k] = v` on a dict: replace the value in place, or append. -/
def pyStore {β : Type} (fields : List (String × β)) (k : String) (v : β) :
    List (String × β) :=
  match fields with
  | [] => [(k, v)]
  | (k2, v2) :: rest =>
      if k2 = k then (k2, v) :: rest else (k2, v2) :: pyStore rest k v

/-- `d.update(e)`: store every binding of `e` into `d`, in order. -/
def pyUpdate {β : Type} (d e : List (String × β)) : List (String × β) :=
  e.foldl (fun acc kv => pyStore acc kv.1 kv.2) d

/-- Normalise a sequence of insertions into Python dict item order:
first occurrence keeps the position, later insertions overwrite the value. -/
def pyItems {β : Type} (inserts : List (String × β)) : List (String × β) :=
  inserts.foldl (fun acc kv => pyStore acc kv.1 kv.2) []

/-- `v.get(k)` on a dict value, with Python `None` as the default. -/
def pyDictGet {α : Type} (v : PyVal α) (k : String) : PyVal α :=
  match v with
  | PyVal.dictV fields => (pyLookup fields k).getD PyVal.none
  | _ => PyVal.none

/-- A serialized dictionary field that can be absent (`none`) or an explicit
JSON `null` (`some none`). -/
abbrev JField (β : Type) := Option (Option β)

/-- `conn.get(key, default)`: absent gives the default, `null` gives `None`. -/
def jGetD {β : Type} (f : JField β) (d : β) : Option β :=
  match f with
  | Option.none => some d
  | some v => v

/-- `conn.get(key)`: absent and `null` both give `None`. -/
def jGet {β : Type} (f : JField β) : Option β :=
  match f with
  | Option.none => Option.none
  | some v => v

/-- The string actually used as a dict key for an optional string
(Python happily keys a dict by `None`; see `pyNoneKey`). -/
def keyOf (k : Option String) : String :=
  match k with
  | some s => s
  | Option.none => pyNoneKey

/-- A serialized connection record
`{from_node, to_node, to_parameter, from_output}` as both executors and the
codec consume it. -/
structure SConn where
  from_node : String
  to_node : String
  to_parameter : JField String
  from_output : JField String
deriving DecidableEq, Repr

mutual
/-- A serialized node record as consumed by the executors: the common keys of
the JSON node objects (`id`, `name`, `category`, `node_type`, `position`,
`color`, `parameters`) plus the algorithm-node extras `pipeline_data` and
`algorithm_outputs` (absent on other node kinds). -/
inductive SNode (α : Type) where
  | mk (id : String) (name : String) (category : String) (node_type : String)
      (position : Int × Int) (color : Int × Int × Int)
      (parameters : List (String × PyVal α))
      (pipeline_data : Option (SPipe α))
      (algorithm_outputs : Option (List String))

/-- A serialized pipeline document: `{nodes: [...], connections: [...]}`. -/
inductive SPipe (α : Type) where
  | mk (nodes : List (SNode α)) (connections : List SConn)
end

namespace SNode

def id {α : Type} : SNode α → String
  | mk i _ _ _ _ _ _ _ _ => i

def name {α : Type} : SNode α → String
  | mk _ n _ _ _ _ _ _ _ => n

def category {α : Type} : SNode α → String
  | mk _ _ c _ _ _ _ _ _ => c

def node_type {α : Type} : SNode α → String
  | mk _ _ _ t _ _ _ _ _ => t

def position {α : Type} : SNode α → Int × Int
  | mk _ _ _ _ p _ _ _ _ => p

def color {α : Type} : SNode α → Int × Int × Int
  | mk _ _ _ _ _ c _ _ _ => c

def parameters {α : Type} : SNode α → List (String × PyVal α)
  | mk _ _ _ _ _ _ ps _ _ => ps

def pipeline_data {α : Type} : SNode α → Option (SPipe α)
  | mk _ _ _ _ _ _ _ pd _ => pd

def algorithm_outputs {α : Type} : SNode α → Option (List String)
  | mk _ _ _ _ _ _ _ _ ao => ao

/-- Replace the parameter dict of a node (models the in-place
`node["parameters"].update(...)` of the executor). -/
def withParameters {α : Type} : SNode α → List (String × PyVal α) → SNode α
  | mk i n c t p col _ pd ao, ps => mk i n c t p col ps pd ao

end SNode

namespace SPipe

def nodes {α : Type} : SPipe α → List (SNode α)
  | mk ns _ => ns

def connections {α : Type} : SPipe α → List SConn
  | mk _ cs => cs

end SPipe

/-! ### The scheduler of `pipeline_execution.py` (`_compute_execution_order`)

`PipelineExecutor._parse_pipeline` turns the node list into the dict
`self.nodes = {id: node}` (later duplicates overwrite the value but keep the
first position) and then `_compute_execution_order` runs a depth-first
search from the unique input node, collecting a reversed postorder. -/

/-- `self.nodes`: the node list as a Python dict keyed by `id`. -/
def nodesDict {α : Type} (ns : List (SNode α)) : List (String × SNode α) :=
  pyItems (ns.map fun n => (n.id, n))

/-- First node id of `node_type == "input"` in dict iteration order. -/
def findInputIdPE {α : Type} (items : List (String × SNode α)) : Option String :=
  match items with
  | [] => Option.none
  | (i, n) :: rest =>
      if n.node_type = "input" then some i else findInputIdPE rest

/-- Append a successor to the adjacency entry of `k` (the entry exists). -/
def adjAppend (adj : List (String × List String)) (k v : String) :
    List (String × List String) :=
  match adj with
  | [] => []
  | (k2, l) :: rest =>
      if k2 = k then (k2, l ++ [v]) :: rest else (k2, l) :: adjAppend rest k v

/-- `adj = {node_id: [] for node_id in self.nodes}` followed by
`adj[from].append(to)` per connection; a `from_node` that is not a node id
raises `KeyError`. -/
def buildAdjPE (keys : List String) (conns : List SConn) :
    Except PyErr (List (String × List String)) :=
  conns.foldlM
    (fun adj c =>
      if adj.any (fun p => p.1 = c.from_node) then
        Except.ok (adjAppend adj c.from_node c.to_node)
      else
        Except.error PyErr.keyError)
    (keys.map fun k => (k, ([] : List String)))

/-- The recursive `dfs` of `_compute_execution_order`: mark the node
visited, recurse into `adj[node]` (raising `KeyError` when the traversal
reaches an id with no adjacency entry), then append the node to the
postorder.  `fuel` bounds the recursion depth; every recursive level visits
a previously unvisited id, so `number of node ids + 2` is always enough. -/
def dfsPE (adj : List (String × List String)) :
    Nat → List String × List String → String →
    Except PyErr (List String × List String)
  | 0, st, _ => Except.ok st
  | Nat.succ fuel, (visited, order), nid =>
      if visited.contains nid then Except.ok (visited, order)
      else
        match pyLookup adj nid with
        | Option.none => Except.error PyErr.keyError
        | some nexts => do
            let st ← nexts.foldlM (fun st n => dfsPE adj fuel st n)
              (visited ++ [nid], order)
            Except.ok (st.1, st.2 ++ [nid])

/-- `_compute_execution_order` of `pipeline_execution.PipelineExecutor`:
reversed DFS postorder seeded at the input node; without an input node (or
with a falsy input id) the order stays empty. -/
def computeExecutionOrderPE {α : Type} (p : SPipe α) :
    Except PyErr (List String) :=
  let items := nodesDict p.nodes
  match findInputIdPE items with
  | Option.none => Except.ok []
  | some inputId =>
      if inputId = "" then Except.ok []
      else do
        let adj ← buildAdjPE (items.map fun kv => kv.1) p.connections
        let st ← dfsPE adj (items.length + 2) ([], []) inputId
        Except.ok st.2.reverse

/-! ### The scheduler of `processing_panel.py` (`_build_execution_order`)

A plain breadth-first search from the input node over the connection list,
followed by appending every not-yet-visited node in node-list order. -/

/-- One `while queue` iteration body plus the loop, fuelled: pop the head,
scan the connection list, enqueue unvisited successors.  Every enqueue
corresponds to a distinct newly visited id, so
`number of connections + 2` iterations always drain the queue. -/
def bfsPanel (conns : List SConn) :
    Nat → List String × List String × List String →
    List String × List String
  | 0, (visited, order, _) => (visited, order)
  | Nat.succ fuel, (visited, order, queue) =>
      match queue with
      | [] => (visited, order)
      | current :: rest =>
          let st := conns.foldl
            (fun (st : List String × List String × List String) c =>
              if c.from_node = current ∧ ¬ st.1.contains c.to_node then
                (st.1 ++ [c.to_node], st.2.1 ++ [c.to_node],
                  st.2.2 ++ [c.to_node])
              else st)
            (visited, order, rest)
          bfsPanel conns fuel st

/-- `_build_execution_order` of `processing_panel.PipelineExecutor`:
BFS from the first input node, then all unvisited nodes appended; with no
input node, simply all node ids. -/
def buildExecutionOrderPanel {α : Type} (p : SPipe α) : List String :=
  match p.nodes.find? (fun n => n.node_type = "input") with
  | Option.none => p.nodes.map fun n => n.id
  | some inp =>
      let st := bfsPanel p.connections (p.connections.length + 2)
        ([inp.id], [inp.id], [inp.id])
      st.2 ++ (p.nodes.filter (fun n => ¬ st.1.contains n.id)).map
        (fun n => n.id)

/-- Position of the first occurrence of a string in a list (the length of
the list when absent) — `order.indexOf(x)`. -/
def idxOf (l : List String) (s : String) : Nat :=
  match l with
  | [] => 0
  | x :: rest => if x = s then 0 else idxOf rest s + 1

/-! ### Concrete pipelines for the scheduler claims -/

/-- A bare node record (no embedded pipeline, no algorithm outputs). -/
def mkNode {α : Type} (i nm nt : String) (ps : List (String × PyVal α)) :
    SNode α :=
  SNode.mk i nm "" nt (0, 0) (0, 0, 0) ps Option.none Option.none

/-- A connection record with all four keys present, `to_parameter`
possibly an explicit `null` (the old-format main-image convention). -/
def mkConn (f t : String) (tp : Option String) (fo : Option String) : SConn :=
  SConn.mk f t (some tp) (some fo)

/-- Diamond with reconverging paths of unequal length:
`in -> a`, `in -> out`, `a -> b`, `b -> out`. -/
def diamondPipe : SPipe Nat :=
  SPipe.mk
    [mkNode "in" "Input" "input" [], mkNode "a" "A" "process" [],
      mkNode "b" "B" "process" [], mkNode "out" "Output" "output" []]
    [mkConn "in" "a" (some "image") (some "image"),
      mkConn "in" "out" (some "image") (some "image"),
      mkConn "a" "b" (some "image") (some "image"),
      mkConn "b" "out" (some "image") (some "image")]

/-- `in -> a`, `a -> b`, `b -> a` (a cycle), `a -> out`. -/
def cyclePipe : SPipe Nat :=
  SPipe.mk
    [mkNode "in" "Input" "input" [], mkNode "a" "A" "process" [],
      mkNode "b" "B" "process" [], mkNode "out" "Output" "output" []]
    [mkConn "in" "a" (some "image") (some "image"),
      mkConn "a" "b" (some "image") (some "image"),
      mkConn "b" "a" (some "image") (some "image"),
      mkConn "a" "out" (some "image") (some "image")]

/-! ### The executor of `pipeline_execution.py` (`PipelineExecutor.execute`)

The operator catalogue (`_apply_node_operation` from the grayscale
preparation onwards, for non-algorithm nodes) is the external Operator
Library of the spec; it is a parameter `ops` that may return a value or
raise (the code before the inner `try` of `_apply_node_operation`, e.g.
`input_data.shape` on a non-array value, raises out of it, so raising is a
reachable behaviour of the real function). -/

/-- `v is None`. -/
def isNone {α : Type} : PyVal α → Bool
  | PyVal.none => true
  | _ => false

/-- The abstracted operator dispatch of `_apply_node_operation` for process
nodes: produces a plain value or a `{"image","data"}` dict, or raises. -/
abbrev PEOps (α : Type) := SNode α → PyVal α → Except Unit (PyVal α)

/-- `results.get(id)`: Python `None` when the key is missing (no stored
entry is ever a bare `None`, so the conflation is exact). -/
def resLookup {α : Type} (results : List (String × PyVal α)) (k : String) :
    PyVal α :=
  (pyLookup results k).getD PyVal.none

/-- Read a value produced by an upstream node: index a dict-shaped entry by
the (possibly `None`) output name, pass any other entry through whole. -/
def extractPE {α : Type} (results : List (String × PyVal α)) (fid : String)
    (fo : Option String) : PyVal α :=
  match resLookup results fid with
  | PyVal.dictV fields => (pyLookup fields (keyOf fo)).getD PyVal.none
  | other => other

/-- `_execute_algorithm_node` of `pipeline_execution.py`: run the embedded
pipeline with a freshly constructed sub-executor, and on *any* exception
(including a missing/falsy `pipeline_data` and an exhausted recursion
budget) fall back to the unmodified input. -/
def execAlgorithmNodePE {α : Type}
    (algoSub : SPipe α → PyVal α → Except PyErr (PyVal α)) (node : SNode α)
    (input_data : PyVal α) : PyVal α :=
  match node.pipeline_data with
  | Option.none => input_data
  | some pd =>
      match algoSub pd input_data with
      | Except.ok r => r
      | Except.error _ => input_data

/-- The loop body of `PipelineExecutor.execute` for one scheduled node. -/
def stepPE {α : Type} (algoSub : SPipe α → PyVal α → Except PyErr (PyVal α))
    (ops : PEOps α) (conns : List SConn) (input : PyVal α)
    (results : List (String × PyVal α)) (nid : String) (node : SNode α) :
    List (String × PyVal α) :=
  if node.node_type = "input" then
    pyStore results nid (PyVal.dictV [("image", input)])
  else if node.node_type = "output" then
    let res := conns.foldl
      (fun (acc : PyVal α × PyVal α) c =>
        if c.to_node = nid then
          let v := extractPE results c.from_node (jGetD c.from_output "image")
          match jGet c.to_parameter with
          | some "image" => (v, acc.2)
          | some "data" => (acc.1, v)
          | Option.none => (v, acc.2)
          | some _ => acc
        else acc)
      (PyVal.none, PyVal.none)
    match res with
    | (PyVal.none, d) =>
        pyStore results nid (PyVal.dictV [("image", PyVal.none), ("data", d)])
    | (img, PyVal.none) => pyStore results nid img
    | (img, d) =>
        pyStore results nid (PyVal.dictV [("image", img), ("data", d)])
  else if node.node_type = "process" ∨ node.node_type = "algorithm" then
    match conns.find?
        (fun c => c.to_node == nid && (jGet c.to_parameter).isNone) with
    | Option.none => results
    | some ic =>
        if isNone (resLookup results ic.from_node) then results
        else
          let input_data :=
            extractPE results ic.from_node (jGetD ic.from_output "image")
          if isNone input_data then results
          else
            let pcs := conns.foldl
              (fun (acc : List (String × PyVal α)) c =>
                if c.to_node = nid then
                  match jGet c.to_parameter with
                  | some pname =>
                      let pv := extractPE results c.from_node
                        (jGetD c.from_output "output")
                      if isNone pv then acc else pyStore acc pname pv
                  | Option.none => acc
                else acc)
              []
            let node := if pcs.isEmpty then node
              else node.withParameters (pyUpdate node.parameters pcs)
            let output : Except Unit (PyVal α) :=
              if node.node_type = "algorithm" then
                Except.ok (execAlgorithmNodePE algoSub node input_data)
              else ops node input_data
            match output with
            | Except.ok (PyVal.dictV fs) =>
                pyStore results nid (PyVal.dictV fs)
            | Except.ok out =>
                pyStore results nid (PyVal.dictV [("image", out)])
            | Except.error _ =>
                pyStore results nid (PyVal.dictV [("output", input_data)])
  else results

/-- Walk the scheduled order; looking up a scheduled id that is not in the
node dict raises `KeyError`. -/
def runOrderPE {α : Type}
    (algoSub : SPipe α → PyVal α → Except PyErr (PyVal α)) (ops : PEOps α)
    (items : List (String × SNode α)) (conns : List SConn) (input : PyVal α) :
    List String → List (String × PyVal α) →
    Except PyErr (List (String × PyVal α))
  | [], results => Except.ok results
  | nid :: rest, results =>
      match pyLookup items nid with
      | Option.none => Except.error PyErr.keyError
      | some node =>
          runOrderPE algoSub ops items conns input rest
            (stepPE algoSub ops conns input results nid node)

/-- First node id of `node_type == "output"` in dict iteration order. -/
def findOutputIdPE {α : Type} (items : List (String × SNode α)) :
    Option String :=
  match items with
  | [] => Option.none
  | (i, n) :: rest =>
      if n.node_type = "output" then some i else findOutputIdPE rest

/-- `PipelineExecutor(pipeline_data).execute(input)` of
`pipeline_execution.py`, one recursion level: parse and schedule (errors
propagate out of the constructor), walk the order, then return the output
node entry when present and the raw input otherwise. -/
def executePEcore {α : Type}
    (algoSub : SPipe α → PyVal α → Except PyErr (PyVal α)) (ops : PEOps α)
    (p : SPipe α) (input : PyVal α) : Except PyErr (PyVal α) := do
  let items := nodesDict p.nodes
  let order ← computeExecutionOrderPE p
  let results ← runOrderPE algoSub ops items p.connections input order []
  match findOutputIdPE items with
  | Option.none => Except.ok input
  | some oid =>
      if oid = "" then Except.ok input
      else
        match pyLookup results oid with
        | Option.none => Except.ok input
        | some v => Except.ok v

/-- The full executor of `pipeline_execution.py`; `fuel` is the remaining
recursion budget (exhaustion is the `RecursionError` CPython raises when a
nesting of algorithm nodes exceeds its limit). -/
def executePE {α : Type} (ops : PEOps α) :
    Nat → SPipe α → PyVal α → Except PyErr (PyVal α)
  | 0, _, _ => Except.error PyErr.recursionError
  | Nat.succ f, p, input =>
      executePEcore (fun pd i => executePE ops f pd i) ops p input

/-! ### The executor of `processing_panel.py` (`PipelineExecutor.execute`)

The six inline operators are abstracted behind `PanelOps`: their numpy
bodies are opaque functions that may raise (absorbed by the handler inside
`_execute_process_node`); the parameter *reading* done by `_op_blur`,
`_op_threshold`, `_op_brightness` and `_op_contrast` is part of the
embedding. -/

/-- The opaque numpy cores of the six panel operators. -/
structure PanelOps (α : Type) where
  grayscale : PyVal α → Except Unit (PyVal α)
  blur : PyVal α → PyVal α → Except Unit (PyVal α)
  threshold : PyVal α → PyVal α → Except Unit (PyVal α)
  edge : PyVal α → Except Unit (PyVal α)
  brightness : PyVal α → PyVal α → Except Unit (PyVal α)
  contrast : PyVal α → PyVal α → Except Unit (PyVal α)

/-- `_get_node_inputs`: resolve every connection into this node against the
outputs gathered so far (`to_parameter` defaults to `"image"`, and an
upstream entry is only consulted when present in the outputs map). -/
def getNodeInputsPanel {α : Type} (conns : List SConn) (nid : String)
    (node_outputs : List (String × PyVal α)) : List (String × PyVal α) :=
  conns.foldl
    (fun (inputs : List (String × PyVal α)) c =>
      if c.to_node = nid then
        let tp := jGetD c.to_parameter "image"
        let fo := jGetD c.from_output "image"
        match pyLookup node_outputs c.from_node with
        | Option.none => inputs
        | some prev =>
            let v :=
              match prev with
              | PyVal.dictV fs => (pyLookup fs (keyOf fo)).getD PyVal.none
              | other => other
            pyStore inputs (keyOf tp) v
      else inputs)
    []

/-- `_execute_process_node`: dispatch the six known operators (reading
their parameters from the node's constants), pass unknown names through,
and turn any operator exception into an image-preserving pass-through. -/
def execProcessNodePanel {α : Type} (ops : PanelOps α) (node : SNode α)
    (inputs : List (String × PyVal α)) : PyVal α :=
  let params := node.parameters
  let input_image := (pyLookup inputs "image").getD PyVal.none
  if isNone input_image then
    PyVal.dictV [("image", PyVal.none), ("data", PyVal.none)]
  else
    let name := node.name
    let r : Except Unit (PyVal α) :=
      if name = "Grayscale" then ops.grayscale input_image
      else if name = "Blur" then
        ops.blur ((pyLookup params "kernel_size").getD (PyVal.intV 5))
          input_image
      else if name = "Threshold" then
        ops.threshold ((pyLookup params "threshold").getD (PyVal.intV 128))
          input_image
      else if name = "Edge Detection" then ops.edge input_image
      else if name = "Brightness" then
        ops.brightness ((pyLookup params "brightness").getD (PyVal.intV 0))
          input_image
      else if name = "Contrast" then
        ops.contrast ((pyLookup params "contrast").getD (PyVal.floatV 1))
          input_image
      else Except.ok input_image
    match r with
    | Except.ok out =>
        PyVal.dictV [("image", out), ("data", PyVal.none)]
    | Except.error _ =>
        PyVal.dictV [("image", input_image), ("data", PyVal.none)]

/-- `_execute_algorithm_node` of `processing_panel.py`: run the embedded
pipeline through a fresh sub-executor; exceptions are *not* caught here. -/
def execAlgorithmNodePanel {α : Type}
    (algoSub : SPipe α → PyVal α → Except PyErr (PyVal α)) (node : SNode α)
    (inputs : List (String × PyVal α)) : Except PyErr (PyVal α) :=
  match node.pipeline_data with
  | Option.none => Except.ok (PyVal.dictV inputs)
  | some pd =>
      let input_image := (pyLookup inputs "image").getD PyVal.none
      if isNone input_image then
        Except.ok (PyVal.dictV [("image", PyVal.none), ("data", PyVal.none)])
      else do
        let result ← algoSub pd input_image
        match result with
        | PyVal.dictV fs => Except.ok (PyVal.dictV fs)
        | r =>
            Except.ok (PyVal.dictV [("image", r), ("data", PyVal.none)])

/-- The `try`-guarded loop body of the panel executor for one node:
any exception from the dispatch stores the resolved inputs unchanged. -/
def stepPanel {α : Type}
    (algoSub : SPipe α → PyVal α → Except PyErr (PyVal α))
    (ops : PanelOps α) (conns : List SConn)
    (node_outputs : List (String × PyVal α)) (nid : String) (node : SNode α) :
    List (String × PyVal α) :=
  if node.node_type = "input" then node_outputs
  else
    let inputs := getNodeInputsPanel conns nid node_outputs
    let r : Except PyErr (PyVal α) :=
      if node.node_type = "output" then Except.ok (PyVal.dictV inputs)
      else if node.node_type = "process" then
        Except.ok (execProcessNodePanel ops node inputs)
      else if node.node_type = "algorithm" then
        execAlgorithmNodePanel algoSub node inputs
      else Except.ok (PyVal.dictV inputs)
    match r with
    | Except.ok v => pyStore node_outputs nid v
    | Except.error _ => pyStore node_outputs nid (PyVal.dictV inputs)

/-- Walk the panel order; `self.node_map[node_id]` raises `KeyError` when a
scheduled id has no node (this lookup is outside the `try`). -/
def runOrderPanel {α : Type}
    (algoSub : SPipe α → PyVal α → Except PyErr (PyVal α))
    (ops : PanelOps α) (node_map : List (String × SNode α))
    (conns : List SConn) :
    List String → List (String × PyVal α) →
    Except PyErr (List (String × PyVal α))
  | [], node_outputs => Except.ok node_outputs
  | nid :: rest, node_outputs =>
      match pyLookup node_map nid with
      | Option.none => Except.error PyErr.keyError
      | some node =>
          runOrderPanel algoSub ops node_map conns rest
            (stepPanel algoSub ops conns node_outputs nid node)

/-- `PipelineExecutor(pipeline_data).execute(input)` of
`processing_panel.py`, one recursion level: seed the first input node
(raising `ValueError` when there is none), walk the order, then assemble
the final value from the first output node entry, falling back to the raw
input when there is no (truthy) output node id or no entry for it. -/
def executePanelCore {α : Type}
    (algoSub : SPipe α → PyVal α → Except PyErr (PyVal α))
    (ops : PanelOps α) (p : SPipe α) (input : PyVal α) :
    Except PyErr (PyVal α) := do
  let node_map := pyItems (p.nodes.map fun n => (n.id, n))
  let seeded ←
    match p.nodes.find? (fun n => n.node_type = "input") with
    | Option.none => Except.error PyErr.valueError
    | some n =>
        Except.ok [(n.id, PyVal.dictV [("image", input)])]
  let order := buildExecutionOrderPanel p
  let node_outputs ← runOrderPanel algoSub ops node_map p.connections order
    seeded
  match p.nodes.find? (fun n => n.node_type = "output") with
  | Option.none => Except.ok input
  | some onode =>
      if onode.id = "" then Except.ok input
      else
        match pyLookup node_outputs onode.id with
        | Option.none => Except.ok input
        | some result =>
            match result with
            | PyVal.dictV fs =>
                match pyLookup fs "data" with
                | some d =>
                    if isNone d then
                      Except.ok ((pyLookup fs "image").getD PyVal.none)
                    else
                      Except.ok (PyVal.dictV
                        [("image", (pyLookup fs "image").getD PyVal.none),
                          ("data", d)])
                | Option.none =>
                    Except.ok ((pyLookup fs "image").getD PyVal.none)
            | _ => Except.error PyErr.typeError

/-- The full executor of `processing_panel.py`, fuelled like `executePE`. -/
def executePanel {α : Type} (ops : PanelOps α) :
    Nat → SPipe α → PyVal α → Except PyErr (PyVal α)
  | 0, _, _ => Except.error PyErr.recursionError
  | Nat.succ f, p, input =>
      executePanelCore (fun pd i => executePanel ops f pd i) ops p input

/-! ### Concrete pipelines for the executor claims -/

/-- `Input -> A -> B -> Output` with the `Input -> A` connection removed,
in the old serialized convention consumed by `pipeline_execution.py`
(main-image connections carry an explicit `null` `to_parameter`). -/
def c6PipePE (α : Type) : SPipe α :=
  SPipe.mk
    [mkNode "in" "Input" "input" [], mkNode "a" "A" "process" [],
      mkNode "b" "B" "process" [], mkNode "out" "Output" "output" []]
    [mkConn "a" "b" Option.none (some "image"),
      mkConn "b" "out" Option.none (some "image")]

/-- `Input -> A -> B -> Output` with the `Input -> A` connection removed,
in the canvas-serialized convention consumed by `processing_panel.py`
(`to_parameter` normalised to `"image"`). -/
def c6PipePanel (α : Type) : SPipe α :=
  SPipe.mk
    [mkNode "in" "Input" "input" [], mkNode "a" "A" "process" [],
      mkNode "b" "B" "process" [], mkNode "out" "Output" "output" []]
    [mkConn "a" "b" (some "image") (some "image"),
      mkConn "b" "out" (some "image") (some "image")]

/-- `Input -> F -> Output` (old convention), the carrier pipeline for the
operator-exception claim. -/
def c4PipePE (α : Type) : SPipe α :=
  SPipe.mk
    [mkNode "in" "Input" "input" [], mkNode "f" "F" "process" [],
      mkNode "out" "Output" "output" []]
    [mkConn "in" "f" Option.none (some "image"),
      mkConn "f" "out" Option.none (some "image")]

/-- An operator library whose every invocation raises. -/
def failAllOpsPE (α : Type) : PEOps α := fun _ _ => Except.error ()

/-- An operator library whose every invocation raises (concrete payload). -/
def failOpsPE : PEOps Nat := fun _ _ => Except.error ()

/-- `Input -> Output` with no connections: the output node is unreachable
and receives no entry in the old-variant executor. -/
def c10Pipe (α : Type) : SPipe α :=
  SPipe.mk
    [mkNode "in" "Input" "input" [], mkNode "out" "Output" "output" []]
    []

/-- Canvas-convention pipeline `Input -> Blur{kernel_size=5} -> Output`
whose connectable `kernel_size` input is fed from the input node. -/
def c5PipePanel : SPipe Nat :=
  SPipe.mk
    [mkNode "in" "Input" "input" [],
      mkNode "nb" "Blur" "process" [("kernel_size", PyVal.intV 5)],
      mkNode "out" "Output" "output" []]
    [mkConn "in" "nb" (some "image") (some "image"),
      mkConn "in" "nb" (some "kernel_size") (some "image"),
      mkConn "nb" "out" (some "image") (some "image")]

/-- Panel operator instantiation that reveals which kernel value the blur
core was invoked with: kernel `5` gives image `0`, anything else image `1`. -/
def c5PanelOps : PanelOps Nat where
  grayscale := fun v => Except.ok v
  blur := fun k _ =>
    Except.ok (match k with
      | PyVal.intV 5 => PyVal.obj 0
      | _ => PyVal.obj 1)
  threshold := fun _ v => Except.ok v
  edge := fun v => Except.ok v
  brightness := fun _ v => Except.ok v
  contrast := fun _ v => Except.ok v

/-- Old-convention pipeline `Input -> {C, Blur{kernel=5}} -> Output` where
the constant-emitting node `C` feeds the connectable `kernel` input of
`Blur`. -/
def c5PipePE (α : Type) : SPipe α :=
  SPipe.mk
    [mkNode "in" "Input" "input" [], mkNode "c" "C" "process" [],
      mkNode "nb" "Blur" "process" [("kernel", PyVal.intV 5)],
      mkNode "out" "Output" "output" []]
    [mkConn "in" "c" Option.none (some "image"),
      mkConn "in" "nb" Option.none (some "image"),
      mkConn "c" "nb" (some "kernel") (some "image"),
      mkConn "nb" "out" Option.none (some "image")]

/-- Operator library for the old executor in which `C` emits the constant
`9` and `Blur` reveals the kernel parameter it was invoked with. -/
def echoKernelOpsPE (α : Type) : PEOps α := fun node i =>
  if node.name = "C" then
    Except.ok (PyVal.dictV [("image", PyVal.intV 9)])
  else if node.name = "Blur" then
    Except.ok (PyVal.dictV
      [("image", (pyLookup node.parameters "kernel").getD (PyVal.intV 5))])
  else Except.ok i

/-! ### The node canvas (`node_canvas.py`)

Only the data model is embedded: node records, the port-name derivation of
`_update_connection_points` (positions are rendering geometry and are
dropped), and `add_connection`.  Object identity of `CanvasNode` arguments
is modelled by their `uuid4` ids, which are unique by construction. -/

/-- The slice of a parameter-definition record that the port derivation
reads (`param['name']`, `param.get('connectable', False)`); the remaining
keys (type, value, bounds) feed only the parameter-editing UI. -/
structure PInfo where
  name : String
  connectable : Bool
deriving DecidableEq, Repr

/-- A `CanvasNode`: identity, display data, parameter state and (for
algorithm nodes) the embedded serialized pipeline and cached outputs.
`pipeline_data`/`algorithm_outputs` being `Option.none` models the
attribute being absent (non-algorithm nodes) or `None`/`{}`. -/
structure CanvasN (α : Type) where
  id : String
  name : String
  category : String
  node_type : String
  x : Int
  y : Int
  color : Int × Int × Int
  parameters : List (String × PyVal α)
  parameter_info : List PInfo
  pipeline_data : Option (SPipe α)
  algorithm_outputs : Option (List String)

/-- Keys of a Python dict populated in the given order (first occurrence
keeps its position, duplicates are dropped). -/
def dedupKeys (l : List String) : List String :=
  (pyItems (l.map fun s => (s, ()))).map fun kv => kv.1

/-- Names of the connectable parameters, in `parameter_info` order. -/
def connectableNames (n : CanvasN α) : List String :=
  (n.parameter_info.filter fun p => p.connectable).map fun p => p.name

/-- The input port names of a node, as the keys of `input_points` after
`_update_connection_points`. -/
def inputPointsOf {α : Type} (n : CanvasN α) : List String :=
  if n.node_type = "input" then []
  else if n.node_type = "output" then ["image", "data"]
  else dedupKeys ("image" :: connectableNames n)

/-- The output port names of a node, as the keys of `output_points` after
`_update_connection_points`. -/
def outputPointsOf {α : Type} (n : CanvasN α) : List String :=
  if n.node_type = "input" then ["image"]
  else if n.node_type = "output" then []
  else if n.node_type = "algorithm" then
    dedupKeys (n.algorithm_outputs.getD ["image"])
  else "image" :: (if n.name = "Object Characteristics" then ["data"] else [])

/-- A stored `Connection`: `Connection.__init__` normalises a falsy
`to_parameter` (Python `None` or `""`) to `"image"`.  The `uuid4` `id` and
the rendering state are dropped (nothing embedded here reads them). -/
structure CConn where
  from_node : String
  to_node : String
  to_parameter : String
  from_output : String
deriving DecidableEq, Repr

/-- `to_parameter or "image"`. -/
def normTP (tp : Option String) : String :=
  match tp with
  | Option.none => "image"
  | some s => if s = "" then "image" else s

/-- Python `storedString == argument` where the argument is an optional
string (comparison with `None` is `False`). -/
def eqRaw (s : String) (tp : Option String) : Bool :=
  match tp with
  | Option.none => false
  | some t => s == t

/-- `NodeCanvas.add_connection`: reject a duplicate of an existing
connection (comparing the *raw* `to_parameter` argument against the stored,
normalised one), a self-connection, an unknown source output port or an
unknown destination input port; otherwise mint the stored connection. -/
def addConnection {α : Type} (conns : List CConn) (from_node to_node : CanvasN α)
    (tp : Option String) (fo : String) : Option CConn :=
  if conns.any (fun c =>
      c.from_node == from_node.id && c.to_node == to_node.id &&
      eqRaw c.to_parameter tp && c.from_output == fo) then
    Option.none
  else if from_node.id = to_node.id then Option.none
  else if (outputPointsOf from_node).contains fo then
    let input_name := normTP tp
    if (inputPointsOf to_node).contains input_name then
      some (CConn.mk from_node.id to_node.id input_name fo)
    else Option.none
  else Option.none

/-- The canvas model state: node list plus connection list. -/
structure Canvas (α : Type) where
  nodes : List (CanvasN α)
  connections : List CConn

/-- `_extract_algorithm_outputs`: the distinct `to_parameter` names (an
explicit `null` becomes the Python `None` key) of connections terminating
at an output-typed node of the embedded pipeline, in connection order,
defaulting to `["image"]` when there are none. -/
def extractAlgorithmOutputs {α : Type} (pd : SPipe α) : List String :=
  let l := pd.connections.foldl
    (fun (acc : List String) c =>
      match pd.nodes.find? (fun n => n.id == c.to_node) with
      | some nd =>
          if nd.node_type = "output" then
            let oname := keyOf (jGetD c.to_parameter "image")
            if acc.contains oname then acc else acc ++ [oname]
          else acc
      | Option.none => acc)
    []
  if l.isEmpty then ["image"] else l

/-- `_extract_algorithm_inputs` of `node_canvas.py`, and the line-identical
inline block of `_deserialize_pipeline`: one connectable image parameter
per distinct truthy `to_parameter` of a connection leaving the embedded
input node, defaulting to a plain `image` input. -/
def extractAlgorithmInputs {α : Type} (pd : SPipe α) : List PInfo :=
  let l := pd.connections.foldl
    (fun (acc : List PInfo) c =>
      match pd.nodes.find? (fun n => n.id == c.from_node) with
      | some nd =>
          if nd.node_type = "input" then
            match jGet c.to_parameter with
            | some s =>
                if s = "" then acc
                else if (acc.map fun p => p.name).contains s then acc
                else acc ++ [PInfo.mk s true]
            | Option.none => acc
          else acc
      | Option.none => acc)
    []
  if l.isEmpty then [PInfo.mk "image" true] else l

/-- `NodeCanvas.add_algorithm_node`: build the algorithm `CanvasNode` for a
pipeline, its connectable inputs and cached outputs extracted from the
embedded pipeline data (`uuid` and screen position supplied by the
caller). -/
def addAlgorithmNode {α : Type} (uuid : String) (aname : String)
    (pd : Option (SPipe α)) (x y : Int) (color : Int × Int × Int) :
    CanvasN α :=
  let pde := pd.getD (SPipe.mk [] [])
  CanvasN.mk uuid aname "Algorithm" "algorithm" x y color []
    (extractAlgorithmInputs pde) (some pde)
    (some (extractAlgorithmOutputs pde))

/-! ### The codec (`algorithm_scene.py`)

`_serialize_pipeline` renumbers node ids as `node_<idx>`;
`_deserialize_pipeline` clears process/algorithm nodes, reuses the
input/output placeholders (repositioning them), recreates the remaining
nodes (fresh `uuid4` ids come from the `idSupply` argument) and replays the
connections through `add_connection`.  The `self._get_parameter_info` call
in the process branch does not exist on `AlgorithmScene` (the method lives
on `NodeCanvas`; the scene only has `_get_parameter_definitions`), so that
branch raises `AttributeError`. -/

/-- `_serialize_pipeline` over a canvas state: node records with ids
`node_<idx>`, algorithm extras only on algorithm nodes, and connection
records resolved through the id map (an inconsistent connection endpoint
would raise `KeyError`). -/
def serializePipeline {α : Type} (canvas : Canvas α) :
    Except PyErr (SPipe α) := do
  let imap := pyItems (canvas.nodes.enum.map fun p =>
    (p.2.id, "node_" ++ toString p.1))
  let ns := canvas.nodes.enum.map fun p =>
    SNode.mk ("node_" ++ toString p.1) p.2.name p.2.category p.2.node_type
      (p.2.x, p.2.y) p.2.color p.2.parameters
      (if p.2.node_type = "algorithm" then p.2.pipeline_data
        else Option.none)
      (if p.2.node_type = "algorithm" then
        some (p.2.algorithm_outputs.getD ["image"])
        else Option.none)
  let cs ← canvas.connections.foldlM
    (fun (acc : List SConn) c => do
      let fid ←
        match pyLookup imap c.from_node with
        | some v => Except.ok v
        | Option.none => Except.error PyErr.keyError
      let tid ←
        match pyLookup imap c.to_node with
        | some v => Except.ok v
        | Option.none => Except.error PyErr.keyError
      Except.ok (acc ++
        [SConn.mk fid tid (some (some c.to_parameter))
          (some (some c.from_output))]))
    []
  Except.ok (SPipe.mk ns cs)

/-- First canvas node with the given id. -/
def findNodeById {α : Type} (ns : List (CanvasN α)) (i : String) :
    Option (CanvasN α) :=
  ns.find? fun n => n.id == i

/-- `_deserialize_pipeline`: the whole load step over a canvas state; any
process node record aborts the load with the `AttributeError` raised by
the missing `self._get_parameter_info`. -/
def deserializePipeline {α : Type} (idSupply : Nat → String)
    (canvas : Canvas α) (pdata : SPipe α) : Except PyErr (Canvas α) := do
  let removed := canvas.nodes.filter fun n =>
    n.node_type = "process" ∨ n.node_type = "algorithm"
  let nodes1 := canvas.nodes.filter fun n =>
    ¬ (n.node_type = "process" ∨ n.node_type = "algorithm")
  let conns1 := canvas.connections.filter fun c =>
    ¬ (removed.any fun n => n.id == c.from_node || n.id == c.to_node)
  let sIn := pdata.nodes.find? fun n => n.node_type = "input"
  let sOut := pdata.nodes.find? fun n => n.node_type = "output"
  let nodes2 := nodes1.map fun n =>
    if n.node_type = "input" then
      match sIn with
      | some d => { n with x := d.position.1, y := d.position.2 }
      | Option.none => n
    else if n.node_type = "output" then
      match sOut with
      | some d => { n with x := d.position.1, y := d.position.2 }
      | Option.none => n
    else n
  let nmap0 : List (String × String) := nodes1.foldl
    (fun m n =>
      if n.node_type = "input" then
        match sIn with
        | some d => pyStore m d.id n.id
        | Option.none => m
      else if n.node_type = "output" then
        match sOut with
        | some d => pyStore m d.id n.id
        | Option.none => m
      else m)
    []
  let st ← pdata.nodes.foldlM
    (fun (st : List (CanvasN α) × List (String × String) × Nat) nd =>
      if nd.node_type = "algorithm" then
        let pde := nd.pipeline_data.getD (SPipe.mk [] [])
        let newNode : CanvasN α :=
          CanvasN.mk (idSupply st.2.2) nd.name nd.category "algorithm"
            nd.position.1 nd.position.2 nd.color nd.parameters
            (extractAlgorithmInputs pde) (some pde)
            (some (nd.algorithm_outputs.getD ["image"]))
        Except.ok (st.1 ++ [newNode], pyStore st.2.1 nd.id newNode.id,
          st.2.2 + 1)
      else if nd.node_type = "process" then
        Except.error PyErr.attributeError
      else Except.ok st)
    (nodes2, nmap0, 0)
  let allNodes := st.1
  let nmap := st.2.1
  let conns2 := pdata.connections.foldl
    (fun (cs : List CConn) c =>
      match pyLookup nmap c.from_node, pyLookup nmap c.to_node with
      | some fid, some tid =>
          match findNodeById allNodes fid, findNodeById allNodes tid with
          | some fn, some tn =>
              match addConnection cs fn tn (jGet c.to_parameter)
                  (keyOf (jGetD c.from_output "image")) with
              | some cc => cs ++ [cc]
              | Option.none => cs
          | _, _ => cs
      | _, _ => cs)
    conns1
  Except.ok (Canvas.mk allNodes conns2)

/-! ### Concrete canvases and pipelines for the codec and canvas claims -/

/-- The default input placeholder node of a fresh canvas. -/
def inputCN (α : Type) (i : String) : CanvasN α :=
  CanvasN.mk i "Input" "Source" "input" 50 100 (50, 180, 100) [] []
    Option.none Option.none

/-- The default output placeholder node of a fresh canvas. -/
def outputCN (α : Type) (i : String) : CanvasN α :=
  CanvasN.mk i "Output" "Destination" "output" 500 100 (180, 50, 50) [] []
    Option.none Option.none

/-- A `Blur` process node with one connectable parameter. -/
def blurCN : CanvasN Nat :=
  CanvasN.mk "ublur" "Blur" "Filters" "process" 200 100 (100, 150, 200)
    [("kernel_size", PyVal.intV 5)] [PInfo.mk "kernel_size" true]
    Option.none Option.none

/-- A valid pipeline canvas `Input -> Blur -> Output`. -/
def c3Canvas : Canvas Nat :=
  Canvas.mk [inputCN Nat "uin", outputCN Nat "uout", blurCN]
    [CConn.mk "uin" "ublur" "image" "image",
      CConn.mk "ublur" "uout" "image" "image"]

/-- The serialized form of `c3Canvas` produced by `_serialize_pipeline`. -/
def c3Ser : SPipe Nat :=
  SPipe.mk
    [SNode.mk "node_0" "Input" "Source" "input" (50, 100) (50, 180, 100)
        [] Option.none Option.none,
      SNode.mk "node_1" "Output" "Destination" "output" (500, 100)
        (180, 50, 50) [] Option.none Option.none,
      SNode.mk "node_2" "Blur" "Filters" "process" (200, 100)
        (100, 150, 200) [("kernel_size", PyVal.intV 5)] Option.none
        Option.none]
    [SConn.mk "node_0" "node_2" (some (some "image")) (some (some "image")),
      SConn.mk "node_2" "node_1" (some (some "image")) (some (some "image"))]

/-- A fresh editor canvas (only the two placeholders) receiving the load. -/
def c3FreshCanvas : Canvas Nat :=
  Canvas.mk [inputCN Nat "fin", outputCN Nat "fout"] []

/-- Deterministic stand-in for the `uuid4` supply of node creation. -/
def c3IdSupply : Nat → String := fun n => "uuid_" ++ toString n

/-- Embedded panel-convention pipeline `Input -> Grayscale -> Output`. -/
def c9InnerPanel (α : Type) : SPipe α :=
  SPipe.mk
    [mkNode "pin" "Input" "input" [], mkNode "g" "Grayscale" "process" [],
      mkNode "pout" "Output" "output" []]
    [mkConn "pin" "g" (some "image") (some "image"),
      mkConn "g" "pout" (some "image") (some "image")]

/-- An algorithm node wrapping `c9InnerPanel`, with the outputs cached the
way `add_algorithm_node`/`_deserialize_pipeline` cache them. -/
def c9AlgoNodePanel (α : Type) : SNode α :=
  SNode.mk "alg" "MyAlg" "Algorithm" "algorithm" (0, 0) (0, 0, 0) []
    (some (c9InnerPanel α)) (some ["image"])

/-- Outer panel-convention pipeline `Input -> [Algorithm] -> Output`. -/
def c9OuterPanel (α : Type) : SPipe α :=
  SPipe.mk
    [mkNode "oin" "Input" "input" [], c9AlgoNodePanel α,
      mkNode "oout" "Output" "output" []]
    [mkConn "oin" "alg" (some "image") (some "image"),
      mkConn "alg" "oout" (some "image") (some "image")]

/-- Embedded old-convention pipeline `Input -> Grayscale -> Output`. -/
def c9InnerPE (α : Type) : SPipe α :=
  SPipe.mk
    [mkNode "pin" "Input" "input" [], mkNode "g" "Grayscale" "process" [],
      mkNode "pout" "Output" "output" []]
    [mkConn "pin" "g" Option.none (some "image"),
      mkConn "g" "pout" Option.none (some "image")]

/-- An algorithm node wrapping `c9InnerPE`. -/
def c9AlgoNodePE (α : Type) : SNode α :=
  SNode.mk "alg" "MyAlg" "Algorithm" "algorithm" (0, 0) (0, 0, 0) []
    (some (c9InnerPE α)) (some ["image"])

/-- Outer old-convention pipeline `Input -> [Algorithm] -> Output`. -/
def c9OuterPE (α : Type) : SPipe α :=
  SPipe.mk
    [mkNode "oin" "Input" "input" [], c9AlgoNodePE α,
      mkNode "oout" "Output" "output" []]
    [mkConn "oin" "alg" Option.none (some "image"),
      mkConn "alg" "oout" Option.none (some "image")]

/-- Panel operators whose grayscale core applies an opaque per-pixel map
`gs` to the image payload (the other operators pass through; they are
never reached in the nesting pipelines). -/
def grayPanelOps {α : Type} (gs : α → α) : PanelOps α where
  grayscale := fun v =>
    Except.ok (match v with
      | PyVal.obj a => PyVal.obj (gs a)
      | x => x)
  blur := fun _ v => Except.ok v
  threshold := fun _ v => Except.ok v
  edge := fun v => Except.ok v
  brightness := fun _ v => Except.ok v
  contrast := fun _ v => Except.ok v

/-- Old-executor operator library with the same opaque grayscale core. -/
def grayOpsPE {α : Type} (gs : α → α) : PEOps α := fun node i =>
  if node.name = "Grayscale" then
    Except.ok (match i with
      | PyVal.obj a => PyVal.obj (gs a)
      | x => x)
  else Except.ok i

/-- Canvas nodes used by the connection-invariant claim. -/
def c8NIn : CanvasN Nat :=
  CanvasN.mk "n1" "Input" "Source" "input" 50 100 (50, 180, 100) [] []
    Option.none Option.none

/-- Canvas output node used by the connection-invariant claim. -/
def c8NOut : CanvasN Nat :=
  CanvasN.mk "n2" "Output" "Destination" "output" 500 100 (180, 50, 50) []
    [] Option.none Option.none

/-! ## Theorems for the frozen claims -/

/-- C1.  The BFS order builder of the processing-panel executor schedules the
diamond pipeline as `[in, a, out, b]`, placing the destination `out` of the
connection `b -> out` before its source `b`: the computed execution order is
not topologically valid, although the pipeline is acyclic.  (The claim
asserts topological validity for both order-building variants.) -/
theorem c1_panel_bfs_order_not_topological :
    buildExecutionOrderPanel diamondPipe = ["in", "a", "out", "b"] ∧
    (mkConn "b" "out" (some "image") (some "image")) ∈
      diamondPipe.connections ∧
    idxOf (buildExecutionOrderPanel diamondPipe) "out" <
      idxOf (buildExecutionOrderPanel diamondPipe) "b" := by
  refine ⟨by decide, by decide, by decide⟩

/-- C2.  On a pipeline whose connections contain the cycle `a -> b -> a`,
both order builders terminate normally and silently return a complete
schedule (`[in, a, out, b]` and `[in, a, b, out]` respectively); no
structural error is raised. -/
theorem c2_cycle_not_rejected :
    computeExecutionOrderPE cyclePipe = Except.ok ["in", "a", "out", "b"] ∧
    buildExecutionOrderPanel cyclePipe = ["in", "a", "b", "out"] := by
  refine ⟨rfl, by decide⟩

/-- C4 (counterexample).  In the `pipeline_execution.py` executor, when the
operator of node `f` raises, the entry stored for `f` is
`{"output": inputImage}` — not the resolved inputs — so the downstream
output node, reading `from_output = "image"` of that entry, obtains `None`:
the final result is `{"image": None, "data": None}` instead of the
unmodified input image that the claim promises to downstream consumers. -/
theorem c4_pe_exception_entry_not_resolved_inputs :
    computeExecutionOrderPE (c4PipePE Nat) = Except.ok ["in", "f", "out"] ∧
    runOrderPE (fun pd i => executePE failOpsPE 3 pd i) failOpsPE
        (nodesDict (c4PipePE Nat).nodes) (c4PipePE Nat).connections
        (PyVal.obj 7) ["in", "f", "out"] [] =
      Except.ok
        [("in", PyVal.dictV [("image", PyVal.obj 7)]),
          ("f", PyVal.dictV [("output", PyVal.obj 7)]),
          ("out", PyVal.dictV
            [("image", PyVal.none), ("data", PyVal.none)])] ∧
    executePE failOpsPE 4 (c4PipePE Nat) (PyVal.obj 7) =
      Except.ok (PyVal.dictV [("image", PyVal.none), ("data", PyVal.none)]) := by
  refine ⟨rfl, rfl, rfl⟩

/-- C4 (amended).  An operator exception is caught and execution continues,
with no exception escaping `execute`; but the stored entry differs by
variant: the old executor stores `{"output": resolvedImage}` (downstream
`"image"` readers then see `None`), while the panel executor's handler
inside `_execute_process_node` stores `{"image": resolvedImage,
"data": None}`, preserving the image for downstream consumers. -/
theorem c4_amended_exception_pass_through :
    (∀ (α : Type) (ops : PEOps α) (f : Nat) (i : α),
      ops (mkNode "f" "F" "process" []) (PyVal.obj i) = Except.error () →
      runOrderPE (fun pd j => executePE ops f pd j) ops
          (nodesDict (c4PipePE α).nodes) (c4PipePE α).connections
          (PyVal.obj i) ["in", "f", "out"] [] =
        Except.ok
          [("in", PyVal.dictV [("image", PyVal.obj i)]),
            ("f", PyVal.dictV [("output", PyVal.obj i)]),
            ("out", PyVal.dictV
              [("image", PyVal.none), ("data", PyVal.none)])] ∧
      executePE ops (f + 1) (c4PipePE α) (PyVal.obj i) =
        Except.ok
          (PyVal.dictV [("image", PyVal.none), ("data", PyVal.none)])) ∧
    (∀ (α : Type) (pops : PanelOps α) (ps : List (String × PyVal α))
      (inputs : List (String × PyVal α)) (v : PyVal α),
      pyLookup inputs "image" = some v →
      isNone v = false →
      pops.blur ((pyLookup ps "kernel_size").getD (PyVal.intV 5)) v =
        Except.error () →
      execProcessNodePanel pops (mkNode "nb" "Blur" "process" ps) inputs =
        PyVal.dictV [("image", v), ("data", PyVal.none)]) := by
  constructor
  · intro α ops f i hf
    simp [mkNode] at hf
    constructor <;>
      simp [executePE, executePEcore, runOrderPE, stepPE,
        computeExecutionOrderPE, findInputIdPE, findOutputIdPE, buildAdjPE,
        dfsPE, adjAppend, nodesDict, pyItems, pyStore, pyLookup, pyUpdate,
        extractPE, resLookup, jGet, jGetD, keyOf, isNone,
        execAlgorithmNodePE, c4PipePE, mkNode, mkConn, SNode.id, SNode.name,
        SNode.node_type, SNode.parameters, SNode.pipeline_data,
        SNode.withParameters, SPipe.nodes, SPipe.connections, List.foldlM,
        Bind.bind, Except.bind, Except.pure, pure, hf]
  · intro α pops ps inputs v hv hnone hb
    simp [execProcessNodePanel, mkNode, SNode.parameters, SNode.name, hv,
      hnone, hb]

/-- C4 (witness for the amended theorem). -/
theorem c4_amended_exception_pass_through_witness :
    (executePE failOpsPE 4 (c4PipePE Nat) (PyVal.obj 7) =
      Except.ok
        (PyVal.dictV [("image", PyVal.none), ("data", PyVal.none)])) ∧
    (execProcessNodePanel
        (PanelOps.mk (fun v => Except.ok v) (fun _ _ => Except.error ())
          (fun _ v => Except.ok v) (fun v => Except.ok v)
          (fun _ v => Except.ok v) (fun _ v => Except.ok v))
        (mkNode "nb" "Blur" "process" []) [("image", PyVal.obj (7 : Nat))] =
      PyVal.dictV [("image", PyVal.obj 7), ("data", PyVal.none)]) :=
  ⟨(c4_amended_exception_pass_through.1 Nat failOpsPE 3 7 rfl).2,
    c4_amended_exception_pass_through.2 Nat _ [] _ (PyVal.obj 7) rfl rfl rfl⟩

/-- C5 (counterexample).  In the panel executor, the resolved inputs of the
`Blur` node do contain a value for its connectable `kernel_size` port, yet
the operator is invoked with the stored constant `5` (result image `0`),
not with the resolved value (which would give image `1`): resolved inputs
are never merged into `node.parameters`. -/
theorem c5_panel_parameter_not_overridden :
    executePanel c5PanelOps 3 c5PipePanel (PyVal.obj 7) =
      Except.ok (PyVal.obj 0) ∧
    getNodeInputsPanel c5PipePanel.connections "nb"
        [("in", PyVal.dictV [("image", PyVal.obj 7)])] =
      [("image", PyVal.obj 7), ("kernel_size", PyVal.obj 7)] ∧
    c5PanelOps.blur (PyVal.obj 7) (PyVal.obj 7) =
      Except.ok (PyVal.obj 1) := by
  refine ⟨rfl, rfl, rfl⟩

/-- C5 (amended).  Parameter override by upstream values holds only in the
old `pipeline_execution.py` executor: there, a resolved non-`None` value on
a named `to_parameter` overwrites `node.parameters` before the operator is
invoked (`Blur{kernel=5}` fed by a node emitting `9` runs with kernel `9`);
in the panel executor the operator always reads the stored constants. -/
theorem c5_amended_override_only_in_old_executor :
    (∀ (α : Type) (i : α) (f : Nat),
      executePE (echoKernelOpsPE α) (f + 1) (c5PipePE α) (PyVal.obj i) =
        Except.ok (PyVal.intV 9)) ∧
    (∀ (α : Type) (pops : PanelOps α) (v u : PyVal α),
      isNone v = false →
      execProcessNodePanel pops
          (mkNode "nb" "Blur" "process" [("kernel_size", PyVal.intV 5)])
          [("image", v), ("kernel_size", u)] =
        match pops.blur (PyVal.intV 5) v with
        | Except.ok o => PyVal.dictV [("image", o), ("data", PyVal.none)]
        | Except.error _ =>
            PyVal.dictV [("image", v), ("data", PyVal.none)]) := by
  constructor
  · intro α i f
    rfl
  · intro α pops v u hnone
    simp [execProcessNodePanel, mkNode, SNode.parameters, SNode.name,
      pyLookup, hnone]

/-- C5 (witness for the amended theorem). -/
theorem c5_amended_override_witness :
    executePE (echoKernelOpsPE Nat) 3 (c5PipePE Nat) (PyVal.obj 7) =
      Except.ok (PyVal.intV 9) ∧
    execProcessNodePanel c5PanelOps
        (mkNode "nb" "Blur" "process" [("kernel_size", PyVal.intV 5)])
        [("image", PyVal.obj 7), ("kernel_size", PyVal.obj 7)] =
      PyVal.dictV [("image", PyVal.obj 0), ("data", PyVal.none)] := by
  refine ⟨c5_amended_override_only_in_old_executor.1 Nat 7 2, ?_⟩
  have h := c5_amended_override_only_in_old_executor.2 Nat c5PanelOps
    (PyVal.obj 7) (PyVal.obj 7) rfl
  rw [h]
  rfl

/-- C6 (counterexample).  For `Input -> A -> B -> Output` with the
`Input -> A` connection removed, the old executor does not return a `None`
image: the nodes `a`, `b`, `out` are unreachable from the input, are left
out of the execution order, and `execute` falls back to returning the
original input image. -/
theorem c6_pe_returns_input_not_none :
    executePE (fun _ i => Except.ok i : PEOps Nat) 4 (c6PipePE Nat)
        (PyVal.obj 7) =
      Except.ok (PyVal.obj 7) ∧
    (PyVal.obj 7 : PyVal Nat) ≠ PyVal.none :=
  ⟨rfl, fun h => PyVal.noConfusion h⟩

/-- C6 (amended).  With `Input -> A` removed: in the old executor the
execution order is just `[in]` (A, B, Output are unreachable, produce no
entries) and `execute` returns the original input image; in the panel
executor A and B do produce entries — `{"image": None, "data": None}` — the
output entry is `{"image": None}`, and `execute` returns `None`. -/
theorem c6_amended_cascading_skip :
    (∀ (α : Type) (ops : PEOps α) (f : Nat) (i : α),
      computeExecutionOrderPE (c6PipePE α) = Except.ok ["in"] ∧
      executePE ops (f + 1) (c6PipePE α) (PyVal.obj i) =
        Except.ok (PyVal.obj i)) ∧
    (∀ (α : Type) (pops : PanelOps α) (f : Nat) (i : α),
      runOrderPanel (fun pd j => executePanel pops f pd j) pops
          (pyItems ((c6PipePanel α).nodes.map fun n => (n.id, n)))
          (c6PipePanel α).connections
          (buildExecutionOrderPanel (c6PipePanel α))
          [("in", PyVal.dictV [("image", PyVal.obj i)])] =
        Except.ok
          [("in", PyVal.dictV [("image", PyVal.obj i)]),
            ("a", PyVal.dictV [("image", PyVal.none), ("data", PyVal.none)]),
            ("b", PyVal.dictV [("image", PyVal.none), ("data", PyVal.none)]),
            ("out", PyVal.dictV [("image", PyVal.none)])] ∧
      executePanel pops (f + 1) (c6PipePanel α) (PyVal.obj i) =
        Except.ok PyVal.none) := by
  constructor
  · intro α ops f i
    exact ⟨rfl, rfl⟩
  · intro α pops f i
    exact ⟨rfl, rfl⟩

/-- C6 (witness for the amended theorem). -/
theorem c6_amended_cascading_skip_witness :
    executePE (fun _ i => Except.ok i : PEOps Nat) 3 (c6PipePE Nat)
        (PyVal.obj 2) =
      Except.ok (PyVal.obj 2) ∧
    executePanel c5PanelOps 3 (c6PipePanel Nat) (PyVal.obj 2) =
      Except.ok PyVal.none :=
  ⟨(c6_amended_cascading_skip.1 Nat _ 2 2).2,
    (c6_amended_cascading_skip.2 Nat c5PanelOps 2 2).2⟩

/-- C10.  In the `pipeline_execution.py` executor, whenever the first
output node receives no entry in the results map built by the execution
walk (for instance because it is unreachable from the input node),
`execute` returns the original input value unchanged — not `None` and not
an error. -/
theorem c10_missing_output_entry_returns_input {α : Type} (ops : PEOps α)
    (f : Nat) (p : SPipe α) (input : PyVal α) (oid : String)
    (order : List String) (results : List (String × PyVal α))
    (h1 : computeExecutionOrderPE p = Except.ok order)
    (h2 : runOrderPE (fun pd i => executePE ops f pd i) ops
      (nodesDict p.nodes) p.connections input order [] = Except.ok results)
    (h3 : findOutputIdPE (nodesDict p.nodes) = some oid)
    (h4 : pyLookup results oid = Option.none) :
    executePE ops (f + 1) p input = Except.ok input := by
  show executePEcore (fun pd i => executePE ops f pd i) ops p input =
    Except.ok input
  unfold executePEcore
  rw [h1]
  simp only [Except.bind, bind]
  rw [h2]
  simp only [h3]
  by_cases hoid : oid = ""
  · simp [hoid]
  · simp [hoid, h4]

/-- C10 (witness): `Input -> Output` with no connections leaves the output
node without an entry, and `execute` returns the input image. -/
theorem c10_missing_output_entry_witness :
    executePE (fun _ i => Except.ok i : PEOps Nat) 4 (c10Pipe Nat)
        (PyVal.obj 2) =
      Except.ok (PyVal.obj 2) :=
  c10_missing_output_entry_returns_input
    (fun _ i => Except.ok i) 3 (c10Pipe Nat) (PyVal.obj 2) "out" ["in"]
    [("in", PyVal.dictV [("image", PyVal.obj 2)])] rfl rfl rfl rfl

/-- C3 (divergence witness).  Serializing the valid pipeline
`Input -> Blur -> Output` succeeds, but deserializing its own serialized
form fails with the `AttributeError` raised by the process-node branch of
`_deserialize_pipeline` (`self._get_parameter_info` does not exist on
`AlgorithmScene`): the round-trip rejects every pipeline containing a
process node instead of reproducing it. -/
theorem c3_roundtrip_rejected_for_process_nodes :
    serializePipeline c3Canvas = Except.ok c3Ser ∧
    deserializePipeline c3IdSupply c3FreshCanvas c3Ser =
      Except.error PyErr.attributeError := by
  refine ⟨rfl, rfl⟩

/-- C8 (counterexample).  `add_connection` normalises `to_parameter=None`
to `"image"` when storing, but the duplicate scan compares the stored
string against the raw argument, and `"image" == None` is false: a second,
identical `None`-parameter add of `Input -> Output` is accepted, leaving
two connections with the identical `(from, to, "image", "image")` tuple. -/
theorem c8_duplicate_with_none_to_parameter_accepted :
    addConnection ([] : List CConn) c8NIn c8NOut Option.none "image" =
      some (CConn.mk "n1" "n2" "image" "image") ∧
    addConnection [CConn.mk "n1" "n2" "image" "image"] c8NIn c8NOut
        Option.none "image" =
      some (CConn.mk "n1" "n2" "image" "image") := by
  refine ⟨rfl, rfl⟩

/-- C8 (amended).  Every connection accepted by `add_connection` joins two
distinct nodes through an existing output port and an existing (normalised)
input port, and is stored with the normalised `to_parameter`; a duplicate
add is rejected when the caller passes `to_parameter` as the stored port
name itself — only the `None`-argument form escapes the duplicate scan. -/
theorem c8_amended_connection_invariants :
    (∀ (α : Type) (conns : List CConn) (a b : CanvasN α)
      (tp : Option String) (fo : String) (c : CConn),
      addConnection conns a b tp fo = some c →
      a.id ≠ b.id ∧ (outputPointsOf a).contains fo = true ∧
        (inputPointsOf b).contains (normTP tp) = true ∧
        c = CConn.mk a.id b.id (normTP tp) fo) ∧
    (∀ (α : Type) (conns : List CConn) (a b : CanvasN α) (p : String)
      (fo : String),
      CConn.mk a.id b.id p fo ∈ conns →
      addConnection conns a b (some p) fo = Option.none) := by
  constructor
  · intro α conns a b tp fo c h
    unfold addConnection at h
    dsimp only at h
    split at h
    · exact Option.noConfusion h
    · split at h
      · exact Option.noConfusion h
      · rename_i hself
        split at h
        · rename_i hfo
          split at h
          · rename_i hin
            exact ⟨hself, hfo, hin, (Option.some.inj h).symm⟩
          · exact Option.noConfusion h
        · exact Option.noConfusion h
  · intro α conns a b p fo hmem
    have hany : (conns.any fun c =>
        c.from_node == a.id && c.to_node == b.id &&
        eqRaw c.to_parameter (some p) && c.from_output == fo) = true := by
      refine List.any_eq_true.mpr ⟨CConn.mk a.id b.id p fo, hmem, ?_⟩
      simp [eqRaw]
    unfold addConnection
    simp [hany]

/-- C8 (witness for the amended theorem). -/
theorem c8_amended_connection_invariants_witness :
    (("n1" : String) ≠ "n2" ∧
      (outputPointsOf c8NIn).contains "image" = true ∧
      (inputPointsOf c8NOut).contains (normTP Option.none) = true ∧
      CConn.mk "n1" "n2" "image" "image" =
        CConn.mk c8NIn.id c8NOut.id (normTP Option.none) "image") ∧
    addConnection [CConn.mk "n1" "n2" "image" "image"] c8NIn c8NOut
        (some "image") "image" = Option.none :=
  ⟨c8_amended_connection_invariants.1 Nat [] c8NIn c8NOut Option.none
      "image" (CConn.mk "n1" "n2" "image" "image") rfl,
    c8_amended_connection_invariants.2 Nat
      [CConn.mk "n1" "n2" "image" "image"] c8NIn c8NOut "image" "image"
      (List.mem_singleton.mpr rfl)⟩

set_option maxHeartbeats 2000000 in
/-- C9.  An algorithm node wrapping `Input -> Grayscale -> Output` produces,
for every image and every grayscale core, the same final result as running
the three-node pipeline directly through a top-level executor — in both
executor variants — and the algorithm node exposes exactly the output port
named by the embedded output connection, `["image"]` (both as extracted
from the pipeline data and as the derived `output_points` of the canvas
node built by `add_algorithm_node`). -/
theorem c9_algorithm_nesting_matches_direct_execution :
    (∀ (α : Type) (gs : α → α) (img : α) (f : Nat),
      executePanel (grayPanelOps gs) (f + 2) (c9OuterPanel α)
          (PyVal.obj img) =
        executePanel (grayPanelOps gs) (f + 1) (c9InnerPanel α)
          (PyVal.obj img) ∧
      executePanel (grayPanelOps gs) (f + 1) (c9InnerPanel α)
          (PyVal.obj img) = Except.ok (PyVal.obj (gs img)) ∧
      executePE (grayOpsPE gs) (f + 2) (c9OuterPE α) (PyVal.obj img) =
        executePE (grayOpsPE gs) (f + 1) (c9InnerPE α) (PyVal.obj img) ∧
      executePE (grayOpsPE gs) (f + 1) (c9InnerPE α) (PyVal.obj img) =
        Except.ok (PyVal.obj (gs img))) ∧
    (∀ (α : Type), extractAlgorithmOutputs (c9InnerPanel α) = ["image"]) ∧
    (∀ (α : Type),
      outputPointsOf
          (addAlgorithmNode "au" "MyAlg" (some (c9InnerPanel α)) 0 0
            (0, 0, 0)) = ["image"]) :=
  ⟨fun _ _ _ _ => ⟨rfl, rfl, rfl, rfl⟩, fun _ => rfl, fun _ => rfl⟩
